import Mathlib

set_option autoImplicit false

/-!
Verification development for a repository of two notebook scripts that
fine-tune a pretrained text classifier with a low-rank-adaptation technique
(`src/unnamed/part_000`, a ModernBERT/PoliticalTweets DoRA notebook, and
`src/LightweightFineTuning-Abhishek.ipynb`, a distilbert/sms_spam exercise
notebook).  Each notebook is a straight-line sequence of calls into the
datasets / transformers / peft libraries; we embed that sequence as a list of
operations with a step semantics, and embed the pure data processing
(tokenization, batch collation, the metric computation, the seeded
train/test split) as executable functions.
-/

namespace Spec2Proof

/-- Kinds of files the scripts cause to be written under their output and
save paths.  `modelWeights` covers base/adapter weight files,
`tokenizerConfig` the tokenizer files written by `tokenizer.save_pretrained`,
and the remaining kinds are the extra files the transformers `Trainer`
places inside each periodic `checkpoint-*` directory (optimizer state,
scheduler state, `trainer_state.json`, RNG state). -/
inductive FileKind where
  | modelWeights
  | tokenizerConfig
  | optimizerState
  | schedulerState
  | trainerState
  | rngState
  deriving DecidableEq

/-- Python exceptions that the library calls appearing in the scripts can
raise.  `columnNotFound` is the `ValueError` raised by `datasets.map` when a
`remove_columns` entry is not a column of the dataset. -/
inductive PyError where
  | valueError (msg : String)
  | columnNotFound (col : String)
  | keyError (key : String)
  | typeError (msg : String)
  deriving DecidableEq

/-- The fields of a peft `LoraConfig` that the two scripts set. -/
structure LoraCfg where
  r : Nat
  loraAlpha : Nat
  targetModules : Option (List String)
  loraDropout : Rat
  bias : String
  taskType : Option String
  modulesToSave : List String
  useDora : Bool
  deriving DecidableEq

/-- `dora_config` of part_000 (cell 4). -/
def dora_config : LoraCfg :=
  { r := 8
    loraAlpha := 32
    targetModules := some ["Wqkv", "Wi", "Wo"]
    loraDropout := 1 / 5
    bias := "none"
    taskType := some "SEQ_CLS"
    modulesToSave := ["classifier", "model.final_norm"]
    useDora := true }

/-- `lora_config` of the Abhishek notebook (cell 14): the TODO placeholders
`target_modules=None` and `task_type=None` are left in place, and `use_dora`
is not passed (its library default is false). -/
def lora_config : LoraCfg :=
  { r := 16
    loraAlpha := 16
    targetModules := none
    loraDropout := 1 / 20
    bias := "none"
    taskType := none
    modulesToSave := []
    useDora := false }

/-- The operations the two scripts perform, in source order.  Cells that only
define Python functions or construct argument objects perform no operation. -/
inductive Op where
  | loadDataset (name : String)
  | splitData (seed : Nat) (testSizePct : Nat)
  | loadTokenizer (modelId : String)
  | loadModel (modelId : String) (numLabels : Nat)
  | tokenizeMap (removeCols : List String)
  | evaluate (tag : String)
  | configureAdapter (cfg : LoraCfg)
  | applyAdapter
  | train
  | saveModel (path : String)
  | saveTokenizer (path : String)
  | savePretrained (path : Option String)
  | loadSaved (path : String)
  | errorAnalysis (textCol : String)
  deriving DecidableEq

/-- The program state a linear notebook run builds up: which stages have
completed, the adapter configuration in scope, the evaluations performed and
the kinds of files written so far. -/
structure PipState where
  datasetLoaded : Bool
  splitDone : Bool
  tokenizerLoaded : Bool
  modelLoaded : Bool
  tokenized : Bool
  adapterConfig : Option LoraCfg
  adapterApplied : Bool
  trained : Bool
  evalsDone : List String
  writes : List FileKind
  deriving DecidableEq

/-- The state before any cell has run. -/
def initState : PipState :=
  { datasetLoaded := false
    splitDone := false
    tokenizerLoaded := false
    modelLoaded := false
    tokenized := false
    adapterConfig := none
    adapterApplied := false
    trained := false
    evalsDone := []
    writes := [] }

/-- Per-script facts the library calls consult: the column names of the
loaded dataset and the `model_type` of the base model. -/
structure ScriptEnv where
  columns : List String
  modelType : String
  deriving DecidableEq

/-- Columns of the PoliticalTweets dataset loaded by part_000: the six names
the script itself tries to remove before tokenization, plus the label
column consumed by training. -/
def politicalTweetsColumns : List String :=
  ["index", "date", "id", "username", "text", "party", "labels"]

/-- Columns of the sms_spam dataset, as printed by the Abhishek notebook
itself (`features: ['sms', 'label']`). -/
def smsSpamColumns : List String := ["sms", "label"]

/-- Model types for which peft's
TRANSFORMERS_MODELS_TO_LORA_TARGET_MODULES_MAPPING supplies default target
modules; only membership of "distilbert" and "modernbert" is consulted here,
and both are absent (the Abhishek notebook's recorded ValueError traceback
shows the mapping miss for distilbert). -/
def loraDefaultTargetTypes : List String :=
  ["t5", "mt5", "bart", "gpt2", "bloom", "opt", "gptj", "gpt_neox", "gpt_neo",
   "bert", "roberta", "xlm-roberta", "electra", "deberta-v2", "deberta",
   "llama", "falcon", "mistral", "mixtral", "phi", "gemma", "qwen2", "chatglm"]

/-- Files the transformers `Trainer` writes into each periodic checkpoint
directory (both scripts enable periodic checkpointing: part_000 with
save_strategy="steps", save_steps=50, the other with save_strategy="epoch";
both set load_best_model_at_end=True, which requires checkpoints). -/
def checkpointWriteKinds : List FileKind :=
  [FileKind.modelWeights, FileKind.optimizerState, FileKind.schedulerState,
   FileKind.trainerState, FileKind.rngState]

def part000Env : ScriptEnv :=
  { columns := politicalTweetsColumns, modelType := "modernbert" }

def abhishekEnv : ScriptEnv :=
  { columns := smsSpamColumns, modelType := "distilbert" }

/-- One operation of a script: either the successor state or the Python
exception the library raises.  Failure conditions are those of the library
calls the scripts make: `map` rejects a `remove_columns` entry that is not a
column, `get_peft_model` rejects a configuration without target modules for
a model type that has no default ones, `save_pretrained(None)` is a type
error, and indexing a dataset record by a nonexistent column is a key
error. -/
def stepOp (env : ScriptEnv) : Op → PipState → Except PyError PipState
  | .loadDataset _, s => .ok { s with datasetLoaded := true }
  | .splitData _ _, s => .ok { s with splitDone := true }
  | .loadTokenizer _, s => .ok { s with tokenizerLoaded := true }
  | .loadModel _ _, s => .ok { s with modelLoaded := true }
  | .tokenizeMap removeCols, s =>
      match removeCols.find? (fun c => !env.columns.contains c) with
      | some c => .error (.columnNotFound c)
      | none => .ok { s with tokenized := true }
  | .evaluate tag, s => .ok { s with evalsDone := s.evalsDone ++ [tag] }
  | .configureAdapter cfg, s => .ok { s with adapterConfig := some cfg }
  | .applyAdapter, s =>
      match s.adapterConfig with
      | none => .error (.valueError "peft_config is missing")
      | some cfg =>
          if cfg.targetModules.isNone && !loraDefaultTargetTypes.contains env.modelType then
            .error (.valueError "Please specify target_modules in peft_config")
          else
            .ok { s with adapterApplied := true }
  | .train, s => .ok { s with trained := true, writes := s.writes ++ checkpointWriteKinds }
  | .saveModel _, s => .ok { s with writes := s.writes ++ [FileKind.modelWeights] }
  | .saveTokenizer _, s => .ok { s with writes := s.writes ++ [FileKind.tokenizerConfig] }
  | .savePretrained p, s =>
      match p with
      | none => .error (.typeError "save_pretrained received None instead of a path")
      | some _ => .ok { s with writes := s.writes ++ [FileKind.modelWeights] }
  | .loadSaved _, s => .ok s
  | .errorAnalysis textCol, s =>
      if env.columns.contains textCol then .ok s
      else .error (.keyError textCol)

/-- Run a list of operations in order.  There is no exception handler
anywhere in either script, so the first error stops the run; the error is
returned together with the program state at the point of failure. -/
def runOps (env : ScriptEnv) : List Op → PipState → Except (PyError × PipState) PipState
  | [], s => .ok s
  | op :: rest, s =>
      match stepOp env op s with
      | .error e => .error (e, s)
      | .ok s2 => runOps env rest s2

/-- The operations of part_000, in the order its cells appear: load the
dataset, split with seed 42, load tokenizer and two-label model, tokenize
(with the malformed `remove_columns` list whose single element is the six
column names joined into one string), evaluate the base model, configure and
apply the DoRA adapter, train, save model and tokenizer, reload, evaluate
the fine-tuned model, and run the error analysis that reads an "sms" column. -/
def part000Ops : List Op :=
  [Op.loadDataset "Jacobvs/PoliticalTweets",
   Op.splitData 42 20,
   Op.loadTokenizer "answerdotai/ModernBERT-base",
   Op.loadModel "answerdotai/ModernBERT-base" 2,
   Op.tokenizeMap ["index, date, id, username, text, party"],
   Op.evaluate "Base Model",
   Op.configureAdapter dora_config,
   Op.applyAdapter,
   Op.train,
   Op.saveModel "./modernbert-political-dora-final",
   Op.saveTokenizer "./modernbert-political-dora-final",
   Op.loadSaved "./modernbert-political-dora-final",
   Op.evaluate "Fine-tuned Model",
   Op.errorAnalysis "sms"]

/-- The operations of the Abhishek notebook in cell order.  The
pre-fine-tuning evaluation cell leaves `trainer = None` and evaluates
nothing; the LoRA configuration keeps the `None` placeholders; the save cell
passes `None` as the path; the load cell leaves `lora_model = None`, so no
load operation occurs before the final evaluation. -/
def abhishekOps : List Op :=
  [Op.loadDataset "sms_spam",
   Op.splitData 23 20,
   Op.loadTokenizer "distilbert-base-uncased",
   Op.tokenizeMap [],
   Op.loadModel "distilbert-base-uncased" 2,
   Op.configureAdapter lora_config,
   Op.applyAdapter,
   Op.train,
   Op.evaluate "after fine-tuning",
   Op.savePretrained none,
   Op.evaluate "loaded fine-tuned"]

/-- State of part_000 after its first four operations, where the tokenize
map aborts. -/
def part000AbortState : PipState :=
  { datasetLoaded := true
    splitDone := true
    tokenizerLoaded := true
    modelLoaded := true
    tokenized := false
    adapterConfig := none
    adapterApplied := false
    trained := false
    evalsDone := []
    writes := [] }

/-- State of the Abhishek notebook after its first six operations, where
`get_peft_model` aborts. -/
def abhishekAbortState : PipState :=
  { datasetLoaded := true
    splitDone := true
    tokenizerLoaded := true
    modelLoaded := true
    tokenized := true
    adapterConfig := some lora_config
    adapterApplied := false
    trained := false
    evalsDone := []
    writes := [] }

/-- First six operations of the Abhishek notebook (before `get_peft_model`). -/
def abhishekPre : List Op :=
  [Op.loadDataset "sms_spam",
   Op.splitData 23 20,
   Op.loadTokenizer "distilbert-base-uncased",
   Op.tokenizeMap [],
   Op.loadModel "distilbert-base-uncased" 2,
   Op.configureAdapter lora_config]

/-- Operations of the Abhishek notebook after `get_peft_model`. -/
def abhishekPost : List Op :=
  [Op.train,
   Op.evaluate "after fine-tuning",
   Op.savePretrained none,
   Op.evaluate "loaded fine-tuned"]

/-- C1: a linear run of each notebook aborts on an error of the script's own
making before reaching training, saving and the final evaluation: part_000
stops at the tokenize map because its `remove_columns` list holds the six
column names joined into a single string, which is not a column of the
dataset, and the Abhishek notebook stops at `get_peft_model` with the
ValueError its own recorded output shows, because the `target_modules=None`
placeholder was never filled in.  Moreover part_000's error-analysis cell
would fail on its own too: it indexes the split dataset by a nonexistent
"sms" column. -/
theorem c1_scripts_abort :
    runOps part000Env part000Ops initState =
      .error (PyError.columnNotFound "index, date, id, username, text, party", part000AbortState) ∧
    runOps abhishekEnv abhishekOps initState =
      .error (PyError.valueError "Please specify target_modules in peft_config", abhishekAbortState) ∧
    stepOp part000Env (Op.errorAnalysis "sms") part000AbortState =
      .error (PyError.keyError "sms") :=
  ⟨rfl, rfl, rfl⟩

/-- C2: neither script installs an exception handler, so the first library
error stops the whole run: if the operations before some failing operation
succeed and produce state `s1`, then the run of the full script returns
exactly that error paired with `s1` — the state at the point of failure is
left as it was, no later operation runs, and nothing is retried. -/
theorem c2_exceptions_propagate (env : ScriptEnv) (pre : List Op) (op : Op) (post : List Op)
    (s s1 : PipState) (e : PyError)
    (hpre : runOps env pre s = .ok s1) (hop : stepOp env op s1 = .error e) :
    runOps env (pre ++ op :: post) s = .error (e, s1) := by
  induction pre generalizing s with
  | nil =>
      simp only [runOps] at hpre
      injection hpre with hpre
      subst hpre
      simp only [List.nil_append, runOps, hop]
  | cons a t ih =>
      simp only [List.cons_append, runOps] at hpre ⊢
      cases ha : stepOp env a s with
      | error e2 => rw [ha] at hpre; exact Except.noConfusion hpre
      | ok s2 => rw [ha] at hpre; exact ih s2 hpre

/-- Witness for c2_exceptions_propagate: instantiated at the Abhishek
notebook's actual failure point, the `get_peft_model` call. -/
theorem c2_exceptions_propagate_witness :
    runOps abhishekEnv (abhishekPre ++ Op.applyAdapter :: abhishekPost) initState =
      .error (PyError.valueError "Please specify target_modules in peft_config", abhishekAbortState) :=
  c2_exceptions_propagate abhishekEnv abhishekPre Op.applyAdapter abhishekPost initState
    abhishekAbortState (PyError.valueError "Please specify target_modules in peft_config") rfl rfl

/-! Stage-order predicates over a script's operation list (claim C4). -/

def isLoadDataset : Op → Bool
  | .loadDataset _ => true
  | _ => false

def isSplitData : Op → Bool
  | .splitData _ _ => true
  | _ => false

def isLoadTokenizer : Op → Bool
  | .loadTokenizer _ => true
  | _ => false

def isLoadModel : Op → Bool
  | .loadModel _ _ => true
  | _ => false

def isTokenizeMap : Op → Bool
  | .tokenizeMap _ => true
  | _ => false

def isEvaluate : Op → Bool
  | .evaluate _ => true
  | _ => false

def isConfigureAdapter : Op → Bool
  | .configureAdapter _ => true
  | _ => false

def isApplyAdapter : Op → Bool
  | .applyAdapter => true
  | _ => false

def isTrain : Op → Bool
  | .train => true
  | _ => false

def isSaveOp : Op → Bool
  | .saveModel _ => true
  | .saveTokenizer _ => true
  | .savePretrained _ => true
  | _ => false

/-- Does the operation at index `i` satisfy `p`? -/
def opSat (p : Op → Bool) (ops : List Op) (i : Nat) : Bool :=
  match ops.get? i with
  | some op => p op
  | none => false

/-- Some operation satisfying `p` occurs strictly before some operation
satisfying `q`. -/
def stageBefore (p q : Op → Bool) (ops : List Op) : Bool :=
  (List.range ops.length).any fun i =>
    (List.range ops.length).any fun j =>
      decide (i < j) && opSat p ops i && opSat q ops j

/-- C4 counterexample: in part_000 an evaluation (the baseline evaluation of
the pre-trained model) occurs strictly before the adapter configuration, and
saving the model is the step right after training — it precedes the
post-training evaluation rather than following evaluation. -/
theorem c4_counterexample :
    stageBefore isEvaluate isConfigureAdapter part000Ops = true ∧
    part000Ops.get? 8 = some Op.train ∧
    part000Ops.get? 9 = some (Op.saveModel "./modernbert-political-dora-final") ∧
    stageBefore isSaveOp isEvaluate part000Ops = true := by
  refine ⟨?_, rfl, rfl, ?_⟩ <;> rfl

/-- C4 amended: each script is a single linear flow — load dataset, split,
load tokenizer, load model, tokenize, configure adapter, apply it, train —
but a baseline evaluation precedes adapter configuration in part_000, and
there saving (which immediately follows training) precedes the post-training
evaluation; in the Abhishek notebook the post-training evaluation precedes
saving, and no evaluation runs before adapter configuration (its
pre-fine-tuning evaluation cell leaves the trainer as None). -/
theorem c4_stage_order :
    List.findIdx isLoadDataset part000Ops < List.findIdx isSplitData part000Ops ∧
    List.findIdx isSplitData part000Ops < List.findIdx isLoadTokenizer part000Ops ∧
    List.findIdx isLoadTokenizer part000Ops < List.findIdx isLoadModel part000Ops ∧
    List.findIdx isLoadModel part000Ops < List.findIdx isTokenizeMap part000Ops ∧
    List.findIdx isTokenizeMap part000Ops < List.findIdx isEvaluate part000Ops ∧
    List.findIdx isEvaluate part000Ops < List.findIdx isConfigureAdapter part000Ops ∧
    List.findIdx isConfigureAdapter part000Ops < List.findIdx isApplyAdapter part000Ops ∧
    List.findIdx isApplyAdapter part000Ops < List.findIdx isTrain part000Ops ∧
    List.findIdx isTrain part000Ops < List.findIdx isSaveOp part000Ops ∧
    stageBefore isSaveOp isEvaluate part000Ops = true ∧
    List.findIdx isLoadDataset abhishekOps < List.findIdx isSplitData abhishekOps ∧
    List.findIdx isSplitData abhishekOps < List.findIdx isLoadTokenizer abhishekOps ∧
    List.findIdx isLoadTokenizer abhishekOps < List.findIdx isTokenizeMap abhishekOps ∧
    List.findIdx isTokenizeMap abhishekOps < List.findIdx isLoadModel abhishekOps ∧
    List.findIdx isLoadModel abhishekOps < List.findIdx isConfigureAdapter abhishekOps ∧
    List.findIdx isConfigureAdapter abhishekOps < List.findIdx isApplyAdapter abhishekOps ∧
    List.findIdx isApplyAdapter abhishekOps < List.findIdx isTrain abhishekOps ∧
    List.findIdx isTrain abhishekOps < List.findIdx isEvaluate abhishekOps ∧
    List.findIdx isEvaluate abhishekOps < List.findIdx isSaveOp abhishekOps ∧
    stageBefore isEvaluate isConfigureAdapter abhishekOps = false := by
  decide

/-! Disk-write footprint of the operations (claim C5). -/

/-- Kinds of files an operation writes when it succeeds: training writes
periodic checkpoints, the save operations write model weights and tokenizer
files, everything else writes nothing under the output and save paths. -/
def writesOf : Op → List FileKind
  | .train => checkpointWriteKinds
  | .saveModel _ => [FileKind.modelWeights]
  | .saveTokenizer _ => [FileKind.tokenizerConfig]
  | .savePretrained (some _) => [FileKind.modelWeights]
  | _ => []

/-- Coherence of the static footprint with the step semantics: a successful
operation appends exactly its footprint to the files written. -/
theorem stepOp_writes (env : ScriptEnv) (op : Op) (s s2 : PipState)
    (h : stepOp env op s = .ok s2) : s2.writes = s.writes ++ writesOf op := by
  cases op <;> simp only [stepOp] at h <;> (try split at h) <;> (try split at h) <;>
    first
      | exact Except.noConfusion h
      | (injection h with h; subst h; simp [writesOf])

/-- All kinds of files either script causes to be written under its output
and save paths. -/
def scriptWrites (ops : List Op) : List FileKind :=
  ops.foldr (fun op acc => writesOf op ++ acc) []

/-- C5 counterexample: part_000's training step (save_strategy="steps",
save_steps=50) causes optimizer state to be written inside checkpoint
directories, which is neither model weights nor tokenizer configuration. -/
theorem c5_counterexample :
    FileKind.optimizerState ∈ scriptWrites part000Ops ∧
    FileKind.optimizerState ∉ [FileKind.modelWeights, FileKind.tokenizerConfig] := by
  decide

/-- C5 amended: every file either script causes to be written under its
output and save paths is model weights, tokenizer configuration, or trainer
checkpoint state (optimizer, scheduler, trainer and RNG state inside the
periodic checkpoint directories). -/
theorem c5_writes_classified :
    ∀ k ∈ scriptWrites part000Ops ++ scriptWrites abhishekOps,
      k ∈ [FileKind.modelWeights, FileKind.tokenizerConfig, FileKind.optimizerState,
           FileKind.schedulerState, FileKind.trainerState, FileKind.rngState] := by
  decide

/-- Witness for c5_writes_classified at a concrete written file kind. -/
theorem c5_writes_classified_witness :
    FileKind.modelWeights ∈ [FileKind.modelWeights, FileKind.tokenizerConfig,
      FileKind.optimizerState, FileKind.schedulerState, FileKind.trainerState,
      FileKind.rngState] :=
  c5_writes_classified FileKind.modelWeights (by decide)

/-! Tokenization and per-batch padding (claim C3). -/

/-- The pair a tokenizer call returns for one record: the token ids and the
attention mask. -/
structure Encoding where
  input_ids : List Nat
  attention_mask : List Nat
  deriving DecidableEq

/-- A tokenizer call with truncation=True and the given maximum length:
`enc` models the tokenizer's raw subword encoding of the text; the call
keeps at most `maxLength` token ids and attaches an all-ones attention mask
of the same length.  No padding happens here. -/
def tokenizeText (enc : String → List Nat) (maxLength : Nat) (text : String) : Encoding :=
  { input_ids := (enc text).take maxLength
    attention_mask := ((enc text).take maxLength).map fun _ => 1 }

/-- part_000 tokenizes with an explicit max_length=128. -/
def part000MaxLength : Nat := 128

/-- The Abhishek notebook tokenizes with truncation=True and no explicit
max_length, so the distilbert-base-uncased tokenizer's model maximum of 512
applies. -/
def distilbertModelMaxLength : Nat := 512

/-- `tokenize_function` of part_000 (truncation=True, max_length=128). -/
def tokenize_function (enc : String → List Nat) (text : String) : Encoding :=
  tokenizeText enc part000MaxLength text

/-- The tokenization lambda of the Abhishek notebook applied to one "sms"
record (truncation=True at the model maximum). -/
def abhishekTokenizeSms (enc : String → List Nat) (text : String) : Encoding :=
  tokenizeText enc distilbertModelMaxLength text

/-- Longest input_ids length in a batch. -/
def batchMaxLen (batch : List Encoding) : Nat :=
  batch.foldr (fun e m => max e.input_ids.length m) 0

/-- DataCollatorWithPadding: pad every encoding of a batch, token ids with
the pad token and attention mask with zeros, up to the longest input_ids
length occurring in that batch. -/
def dataCollatorWithPadding (padTokenId : Nat) (batch : List Encoding) : List Encoding :=
  batch.map fun e =>
    { input_ids := e.input_ids ++ List.replicate (batchMaxLen batch - e.input_ids.length) padTokenId
      attention_mask := e.attention_mask ++ List.replicate (batchMaxLen batch - e.attention_mask.length) 0 }

theorem le_batchMaxLen (batch : List Encoding) (e : Encoding) (he : e ∈ batch) :
    e.input_ids.length ≤ batchMaxLen batch := by
  induction batch with
  | nil => cases he
  | cons b t ih =>
      rcases List.mem_cons.mp he with rfl | he2
      · exact le_max_left _ _
      · exact le_trans (ih he2) (le_max_right _ _)

/-- C3: tokenizing a record yields token ids bounded by the maximum sequence
length (128 in part_000, the distilbert model maximum of 512 in the other
notebook) and an attention mask of the same length; tokenization itself does
not pad (the output length is the minimum of the raw length and the bound),
and the data collator pads every member of a batch to the longest length of
that batch. -/
theorem c3_tokenization_bounded_batch_padded (enc : String → List Nat) (text : String)
    (padTokenId : Nat) (batch : List Encoding)
    (hwf : ∀ e ∈ batch, e.attention_mask.length = e.input_ids.length) :
    (tokenize_function enc text).input_ids.length ≤ part000MaxLength ∧
    (abhishekTokenizeSms enc text).input_ids.length ≤ distilbertModelMaxLength ∧
    (tokenize_function enc text).attention_mask.length =
      (tokenize_function enc text).input_ids.length ∧
    (tokenize_function enc text).input_ids.length = min part000MaxLength (enc text).length ∧
    (abhishekTokenizeSms enc text).input_ids.length =
      min distilbertModelMaxLength (enc text).length ∧
    ∀ e ∈ dataCollatorWithPadding padTokenId batch,
      e.input_ids.length = batchMaxLen batch ∧ e.attention_mask.length = batchMaxLen batch := by
  refine ⟨?_, ?_, ?_, ?_, ?_, ?_⟩
  · simp [tokenize_function, tokenizeText]
  · simp [abhishekTokenizeSms, tokenizeText]
  · simp [tokenize_function, tokenizeText]
  · simp [tokenize_function, tokenizeText]
  · simp [abhishekTokenizeSms, tokenizeText]
  · intro e he
    obtain ⟨e0, he0, rfl⟩ := List.mem_map.mp he
    have hle : e0.input_ids.length ≤ batchMaxLen batch := le_batchMaxLen batch e0 he0
    constructor
    · simp only [List.length_append, List.length_replicate]
      omega
    · have hm := hwf e0 he0
      simp only [List.length_append, List.length_replicate, hm]
      omega

/-- A concrete raw encoding used to instantiate the tokenization theorem. -/
def encDemo : String → List Nat := fun _ => [5, 6, 7]

/-- A concrete two-record batch of unequal lengths used to instantiate the
collator part of the tokenization theorem. -/
def batchDemo : List Encoding :=
  [{ input_ids := [4], attention_mask := [1] },
   { input_ids := [8, 9], attention_mask := [1, 1] }]

/-- Witness for c3_tokenization_bounded_batch_padded at a concrete encoding
and batch. -/
theorem c3_tokenization_witness :
    (tokenize_function encDemo "hello").input_ids.length ≤ part000MaxLength ∧
    (abhishekTokenizeSms encDemo "hello").input_ids.length ≤ distilbertModelMaxLength ∧
    (tokenize_function encDemo "hello").attention_mask.length =
      (tokenize_function encDemo "hello").input_ids.length ∧
    (tokenize_function encDemo "hello").input_ids.length =
      min part000MaxLength (encDemo "hello").length ∧
    (abhishekTokenizeSms encDemo "hello").input_ids.length =
      min distilbertModelMaxLength (encDemo "hello").length ∧
    ∀ e ∈ dataCollatorWithPadding 0 batchDemo,
      e.input_ids.length = batchMaxLen batchDemo ∧
      e.attention_mask.length = batchMaxLen batchDemo :=
  c3_tokenization_bounded_batch_padded encDemo "hello" 0 batchDemo (by decide)

/-! Predictions by argmax over a two-column logits row (claims C6, C8, C10). -/

/-- Index of the first maximal entry from position `i` on, given the best
index and value seen so far (the fold behind np.argmax). -/
def argmaxAux : Nat → Nat → Rat → List Rat → Nat
  | _, best, _, [] => best
  | i, best, bv, x :: xs =>
      if bv < x then argmaxAux (i + 1) i x xs else argmaxAux (i + 1) best bv xs

/-- np.argmax over one logits row: index of the first maximal entry (0 on an
empty row). -/
def argmaxRow : List Rat → Nat
  | [] => 0
  | x :: xs => argmaxAux 1 0 x xs

/-- `np.argmax(outputs.predictions, axis=1)`: one predicted class per row. -/
def predictionsOf (logits : List (List Rat)) : List Nat :=
  logits.map argmaxRow

theorem argmaxAux_lt (xs : List Rat) : ∀ (i best : Nat) (bv : Rat), best < i →
    argmaxAux i best bv xs < i + xs.length := by
  induction xs with
  | nil =>
      intro i best bv h
      simpa [argmaxAux] using h
  | cons x t ih =>
      intro i best bv h
      simp only [argmaxAux, List.length_cons]
      by_cases hx : bv < x
      · rw [if_pos hx]
        have h2 := ih (i + 1) i x (Nat.lt_succ_self i)
        omega
      · rw [if_neg hx]
        have h2 := ih (i + 1) best bv (Nat.lt_succ_of_lt h)
        omega

theorem argmaxRow_lt (row : List Rat) (h : row ≠ []) : argmaxRow row < row.length := by
  cases row with
  | nil => exact absurd rfl h
  | cons x xs =>
      have h2 := argmaxAux_lt xs 1 0 x Nat.one_pos
      simp only [argmaxRow, List.length_cons]
      omega

/-- Every prediction over two-column logits is below 2. -/
theorem predictionsOf_lt_two (logits : List (List Rat))
    (h : ∀ row ∈ logits, row.length = 2) :
    ∀ p ∈ predictionsOf logits, p < 2 := by
  intro p hp
  obtain ⟨row, hrow, rfl⟩ := List.mem_map.mp hp
  have h2 := h row hrow
  have hne : row ≠ [] := by
    intro hnil
    rw [hnil] at h2
    simp at h2
  have h3 := argmaxRow_lt row hne
  omega

/-! The two-class model configurations of the scripts (claims C6, C10). -/

/-- `id2label` passed to the part_000 model loader. -/
def part000Id2Label : List (Nat × String) := [(0, "Republican"), (1, "Democrat")]

/-- `id2label` passed to the Abhishek model loader. -/
def abhishekId2Label : List (Nat × String) := [(0, "not spam"), (1, "spam")]

/-- `label2id` passed to the Abhishek model loader. -/
def abhishekLabel2Id : List (String × Nat) := [("not spam", 0), ("spam", 1)]

/-- `num_labels=2` in part_000. -/
def part000NumLabels : Nat := 2

/-- `num_labels=2` in the Abhishek notebook. -/
def abhishekNumLabels : Nat := 2

/-- Consulting the id2label mapping of a model configuration. -/
def id2labelLookup (m : List (Nat × String)) (c : Nat) : Option String :=
  (m.find? fun p => p.1 == c).map Prod.snd

/-- C10: over logits with exactly two columns (num_labels=2), every
prediction produced by np.argmax along axis 1 is 0 or 1, hence a valid key
of the model's id2label mapping wherever that mapping is consulted. -/
theorem c10_predictions_valid_keys (logits : List (List Rat))
    (h : ∀ row ∈ logits, row.length = part000NumLabels) :
    ∀ p ∈ predictionsOf logits,
      p < 2 ∧ (id2labelLookup part000Id2Label p).isSome = true := by
  intro p hp
  have hlt := predictionsOf_lt_two logits h p hp
  refine ⟨hlt, ?_⟩
  have h01 : p = 0 ∨ p = 1 := by omega
  rcases h01 with rfl | rfl <;> rfl

/-- Concrete logits with two columns per row. -/
def logitsDemo : List (List Rat) := [[1, 2], [3, 1]]

/-- Witness for c10_predictions_valid_keys at concrete logits and at the
concrete prediction 1 those logits produce. -/
theorem c10_predictions_valid_keys_witness :
    1 < 2 ∧ (id2labelLookup part000Id2Label 1).isSome = true :=
  c10_predictions_valid_keys logitsDemo (by decide) 1 (by decide)

/-- C6: both scripts configure the model with exactly two classes —
num_labels=2 and an id2label mapping whose only keys are 0 and 1 — and under
the datasets' binary-label schema every label and every argmax prediction
consumed by metrics and evaluation is one of those two classes. -/
theorem c6_binary_label_model (labels : List Nat) (logits : List (List Rat))
    (hl : ∀ l ∈ labels, l < part000NumLabels)
    (hrow : ∀ row ∈ logits, row.length = abhishekNumLabels) :
    part000Id2Label.map Prod.fst = [0, 1] ∧
    abhishekId2Label.map Prod.fst = [0, 1] ∧
    abhishekLabel2Id.map Prod.snd = [0, 1] ∧
    part000NumLabels = 2 ∧
    abhishekNumLabels = 2 ∧
    (∀ l ∈ labels, l = 0 ∨ l = 1) ∧
    (∀ p ∈ predictionsOf logits, p = 0 ∨ p = 1) := by
  refine ⟨rfl, rfl, rfl, rfl, rfl, ?_, ?_⟩
  · intro l hl2
    have h2 : l < 2 := hl l hl2
    omega
  · intro p hp
    have h2 : p < 2 := predictionsOf_lt_two logits hrow p hp
    omega

/-- Witness for c6_binary_label_model at concrete labels and logits. -/
theorem c6_binary_label_model_witness :
    part000Id2Label.map Prod.fst = [0, 1] ∧
    abhishekId2Label.map Prod.fst = [0, 1] ∧
    abhishekLabel2Id.map Prod.snd = [0, 1] ∧
    part000NumLabels = 2 ∧
    abhishekNumLabels = 2 ∧
    (∀ l ∈ [0, 1, 1], l = 0 ∨ l = 1) ∧
    (∀ p ∈ predictionsOf logitsDemo, p = 0 ∨ p = 1) :=
  c6_binary_label_model [0, 1, 1] logitsDemo (by decide) (by decide)

/-! The metric computation of part_000 (claim C8): `compute_metrics` takes
the prediction logits and the label ids, predicts by argmax over axis 1, and
returns overall accuracy plus precision/recall/F1 averaged over the classes
present, sklearn-style with zero_division=0. -/

/-- Number of positions where prediction and label agree (the sum behind
`(predictions == labels).mean()`). -/
def countMatches (preds labels : List Nat) : Nat :=
  (preds.zip labels).countP fun pl => pl.1 == pl.2

/-- True positives of class `c`. -/
def tpOf (preds labels : List Nat) (c : Nat) : Nat :=
  (preds.zip labels).countP fun pl => pl.1 == c && pl.2 == c

/-- False positives of class `c`. -/
def fpOf (preds labels : List Nat) (c : Nat) : Nat :=
  (preds.zip labels).countP fun pl => pl.1 == c && !(pl.2 == c)

/-- False negatives of class `c`. -/
def fnOf (preds labels : List Nat) (c : Nat) : Nat :=
  (preds.zip labels).countP fun pl => !(pl.1 == c) && pl.2 == c

/-- Per-class precision with the zero_division=0 convention: 0 when the
class is never predicted. -/
def precisionClass (preds labels : List Nat) (c : Nat) : Rat :=
  if tpOf preds labels c + fpOf preds labels c = 0 then 0
  else (tpOf preds labels c : Rat) / ((tpOf preds labels c : Rat) + (fpOf preds labels c : Rat))

/-- Per-class recall with the zero_division=0 convention: 0 when the class
is absent from the labels. -/
def recallClass (preds labels : List Nat) (c : Nat) : Rat :=
  if tpOf preds labels c + fnOf preds labels c = 0 then 0
  else (tpOf preds labels c : Rat) / ((tpOf preds labels c : Rat) + (fnOf preds labels c : Rat))

/-- Per-class F1 (harmonic mean of precision and recall), 0 when both
vanish. -/
def f1Class (preds labels : List Nat) (c : Nat) : Rat :=
  if precisionClass preds labels c + recallClass preds labels c = 0 then 0
  else 2 * precisionClass preds labels c * recallClass preds labels c /
    (precisionClass preds labels c + recallClass preds labels c)

/-- The classes the averaged metrics range over: sklearn averages over the
distinct labels present in the true labels or the predictions. -/
def presentLabels (preds labels : List Nat) : List Nat :=
  (labels ++ preds).dedup

/-- Arithmetic mean of a list of rationals (0 for the empty list, since
division by zero is zero for rationals). -/
def listAvg (l : List Rat) : Rat := l.sum / (l.length : Rat)

/-- The dictionary `compute_metrics` returns; the fields embed its
"accuracy", "macro_precision", "macro_recall" and "macro_f1" entries. -/
structure Metrics where
  accuracy : Rat
  avgPrecision : Rat
  avgRecall : Rat
  avgF1 : Rat
  deriving DecidableEq

/-- `compute_metrics` of part_000: argmax predictions, mean accuracy, and
the averaged precision/recall/F1 computed with zero_division=0. -/
def compute_metrics (logits : List (List Rat)) (labels : List Nat) : Metrics :=
  { accuracy := (countMatches (predictionsOf logits) labels : Rat) / (labels.length : Rat)
    avgPrecision := listAvg ((presentLabels (predictionsOf logits) labels).map
      (precisionClass (predictionsOf logits) labels))
    avgRecall := listAvg ((presentLabels (predictionsOf logits) labels).map
      (recallClass (predictionsOf logits) labels))
    avgF1 := listAvg ((presentLabels (predictionsOf logits) labels).map
      (f1Class (predictionsOf logits) labels)) }

theorem countMatches_eq_positions (preds labels : List Nat) (h : preds.length = labels.length) :
    countMatches preds labels =
      ((List.range labels.length).filter fun i => preds.getD i 0 = labels.getD i 0).length := by
  induction preds generalizing labels with
  | nil =>
      have hnil : labels = [] := by
        cases labels with
        | nil => rfl
        | cons b u => simp at h
      subst hnil
      rfl
  | cons a t ih =>
      cases labels with
      | nil => simp at h
      | cons b u =>
          have h2 : t.length = u.length := by simpa using h
          have hrec := ih u h2
          by_cases hab : a = b <;>
            simp [countMatches, List.countP_cons, List.length_cons, List.range_succ_eq_map,
              List.filter_cons, List.filter_map, Function.comp_def, hab, hrec] <;>
            simp [countMatches] at hrec <;> omega

theorem countMatches_le (preds labels : List Nat) (h : preds.length = labels.length) :
    countMatches preds labels ≤ labels.length := by
  have h1 : countMatches preds labels ≤ (preds.zip labels).length :=
    List.countP_le_length _
  have h2 : (preds.zip labels).length = min preds.length labels.length :=
    List.length_zip preds labels
  omega

theorem precisionClass_nonneg_le_one (preds labels : List Nat) (c : Nat) :
    0 ≤ precisionClass preds labels c ∧ precisionClass preds labels c ≤ 1 := by
  unfold precisionClass
  split
  · exact ⟨le_refl 0, zero_le_one⟩
  · next hne =>
      have hpos : (0 : Rat) < (tpOf preds labels c : Rat) + (fpOf preds labels c : Rat) := by
        have h1 : 0 < tpOf preds labels c + fpOf preds labels c := Nat.pos_of_ne_zero hne
        exact_mod_cast h1
      refine ⟨div_nonneg (Nat.cast_nonneg _) (le_of_lt hpos), ?_⟩
      rw [div_le_one hpos]
      exact le_add_of_nonneg_right (Nat.cast_nonneg _)

theorem recallClass_nonneg_le_one (preds labels : List Nat) (c : Nat) :
    0 ≤ recallClass preds labels c ∧ recallClass preds labels c ≤ 1 := by
  unfold recallClass
  split
  · exact ⟨le_refl 0, zero_le_one⟩
  · next hne =>
      have hpos : (0 : Rat) < (tpOf preds labels c : Rat) + (fnOf preds labels c : Rat) := by
        have h1 : 0 < tpOf preds labels c + fnOf preds labels c := Nat.pos_of_ne_zero hne
        exact_mod_cast h1
      refine ⟨div_nonneg (Nat.cast_nonneg _) (le_of_lt hpos), ?_⟩
      rw [div_le_one hpos]
      exact le_add_of_nonneg_right (Nat.cast_nonneg _)

theorem f1Class_nonneg_le_one (preds labels : List Nat) (c : Nat) :
    0 ≤ f1Class preds labels c ∧ f1Class preds labels c ≤ 1 := by
  obtain ⟨hp0, hp1⟩ := precisionClass_nonneg_le_one preds labels c
  obtain ⟨hr0, hr1⟩ := recallClass_nonneg_le_one preds labels c
  unfold f1Class
  split
  · exact ⟨le_refl 0, zero_le_one⟩
  · next hne =>
      have hpr : 0 < precisionClass preds labels c + recallClass preds labels c :=
        lt_of_le_of_ne (by linarith) (Ne.symm hne)
      constructor
      · exact div_nonneg (by nlinarith) (le_of_lt hpr)
      · rw [div_le_one hpr]
        nlinarith [mul_nonneg (sub_nonneg.mpr hp1) hr0, mul_nonneg (sub_nonneg.mpr hr1) hp0]

theorem listAvg_nonneg_le_one (l : List Rat) (h : ∀ x ∈ l, 0 ≤ x ∧ x ≤ 1) :
    0 ≤ listAvg l ∧ listAvg l ≤ 1 := by
  cases l with
  | nil => simp [listAvg]
  | cons a t =>
      have hlen : (0 : Rat) < ((a :: t).length : Rat) := by
        have : 0 < (a :: t).length := Nat.succ_pos t.length
        exact_mod_cast this
      have hsum0 : 0 ≤ (a :: t).sum := List.sum_nonneg fun x hx => (h x hx).1
      have hsum1 : (a :: t).sum ≤ ((a :: t).length : Rat) := by
        have h2 := List.sum_le_card_nsmul (a :: t) 1 fun x hx => (h x hx).2
        simpa [nsmul_eq_mul] using h2
      unfold listAvg
      exact ⟨div_nonneg hsum0 (le_of_lt hlen), by rw [div_le_one hlen]; exact hsum1⟩

theorem listAvg_map_mem01 (preds labels : List Nat) (f : Nat → Rat)
    (hf : ∀ c, 0 ≤ f c ∧ f c ≤ 1) :
    0 ≤ listAvg ((presentLabels preds labels).map f) ∧
      listAvg ((presentLabels preds labels).map f) ≤ 1 := by
  apply listAvg_nonneg_le_one
  intro x hx
  obtain ⟨c, _, rfl⟩ := List.mem_map.mp hx
  exact hf c

/-- C8: for equal-length (and nonempty) logits and label arrays,
`compute_metrics` returns an accuracy equal to the exact fraction of
positions where the argmax prediction matches the label — a value in
[0, 1] — and its averaged precision, recall and F1 are total functions in
[0, 1]; by the zero_division=0 convention, a class absent from the
predictions gets precision 0 and a class absent from the labels gets recall
0 instead of a division error. -/
theorem c8_compute_metrics_exact (logits : List (List Rat)) (labels : List Nat)
    (hlen : logits.length = labels.length) (hne : 0 < labels.length) :
    (compute_metrics logits labels).accuracy =
      (((List.range labels.length).filter fun i =>
          (predictionsOf logits).getD i 0 = labels.getD i 0).length : Rat) /
        (labels.length : Rat) ∧
    0 ≤ (compute_metrics logits labels).accuracy ∧
    (compute_metrics logits labels).accuracy ≤ 1 ∧
    0 ≤ (compute_metrics logits labels).avgPrecision ∧
    (compute_metrics logits labels).avgPrecision ≤ 1 ∧
    0 ≤ (compute_metrics logits labels).avgRecall ∧
    (compute_metrics logits labels).avgRecall ≤ 1 ∧
    0 ≤ (compute_metrics logits labels).avgF1 ∧
    (compute_metrics logits labels).avgF1 ≤ 1 ∧
    (∀ c, tpOf (predictionsOf logits) labels c + fpOf (predictionsOf logits) labels c = 0 →
      precisionClass (predictionsOf logits) labels c = 0) ∧
    (∀ c, tpOf (predictionsOf logits) labels c + fnOf (predictionsOf logits) labels c = 0 →
      recallClass (predictionsOf logits) labels c = 0) := by
  have hplen : (predictionsOf logits).length = labels.length := by
    simpa [predictionsOf] using hlen
  have hlenpos : (0 : Rat) < (labels.length : Rat) := by exact_mod_cast hne
  have hprec := listAvg_map_mem01 (predictionsOf logits) labels _
    (precisionClass_nonneg_le_one (predictionsOf logits) labels)
  have hrec := listAvg_map_mem01 (predictionsOf logits) labels _
    (recallClass_nonneg_le_one (predictionsOf logits) labels)
  have hf1 := listAvg_map_mem01 (predictionsOf logits) labels _
    (f1Class_nonneg_le_one (predictionsOf logits) labels)
  refine ⟨?_, ?_, ?_, hprec.1, hprec.2, hrec.1, hrec.2, hf1.1, hf1.2, ?_, ?_⟩
  · simp only [compute_metrics, countMatches_eq_positions (predictionsOf logits) labels hplen]
  · exact div_nonneg (Nat.cast_nonneg _) (le_of_lt hlenpos)
  · show (countMatches (predictionsOf logits) labels : Rat) / (labels.length : Rat) ≤ 1
    rw [div_le_one hlenpos]
    exact_mod_cast countMatches_le (predictionsOf logits) labels hplen
  · intro c h0
    simp [precisionClass, h0]
  · intro c h0
    simp [recallClass, h0]

/-- Concrete logits used to instantiate the metric theorem. -/
def logitsW : List (List Rat) := [[0, 1], [2, 1]]

/-- Concrete labels used to instantiate the metric theorem. -/
def labelsW : List Nat := [1, 1]

/-- Witness for c8_compute_metrics_exact at concrete logits and labels. -/
theorem c8_compute_metrics_exact_witness :
    (compute_metrics logitsW labelsW).accuracy =
      (((List.range labelsW.length).filter fun i =>
          (predictionsOf logitsW).getD i 0 = labelsW.getD i 0).length : Rat) /
        (labelsW.length : Rat) ∧
    0 ≤ (compute_metrics logitsW labelsW).accuracy ∧
    (compute_metrics logitsW labelsW).accuracy ≤ 1 ∧
    0 ≤ (compute_metrics logitsW labelsW).avgPrecision ∧
    (compute_metrics logitsW labelsW).avgPrecision ≤ 1 ∧
    0 ≤ (compute_metrics logitsW labelsW).avgRecall ∧
    (compute_metrics logitsW labelsW).avgRecall ≤ 1 ∧
    0 ≤ (compute_metrics logitsW labelsW).avgF1 ∧
    (compute_metrics logitsW labelsW).avgF1 ≤ 1 ∧
    (∀ c, tpOf (predictionsOf logitsW) labelsW c + fpOf (predictionsOf logitsW) labelsW c = 0 →
      precisionClass (predictionsOf logitsW) labelsW c = 0) ∧
    (∀ c, tpOf (predictionsOf logitsW) labelsW c + fnOf (predictionsOf logitsW) labelsW c = 0 →
      recallClass (predictionsOf logitsW) labelsW c = 0) :=
  c8_compute_metrics_exact logitsW labelsW (by decide) (by decide)

/-! The seeded train/test split (claim C9). -/

/-- One step of a linear congruential generator; stands in for the seeded
pseudo-random stream behind the shuffle, whose only relevant property here
is that it is a pure function of the seed. -/
def lcgNext (s : Nat) : Nat := (s * 1103515245 + 12345) % 4294967296

/-- Fuel-indexed seeded shuffle (Fisher-Yates style): repeatedly move the
element at the generator's index to the front and advance the generator; a
model of the seeded permutation the split applies before slicing. -/
def fyAux {α : Type} : Nat → Nat → List α → List α
  | 0, _, l => l
  | _ + 1, _, [] => []
  | fuel + 1, s, x :: xs =>
      (x :: xs).get ⟨s % (x :: xs).length, Nat.mod_lt s (Nat.succ_pos xs.length)⟩ ::
        fyAux fuel (lcgNext s) ((x :: xs).eraseIdx (s % (x :: xs).length))

theorem fyAux_length {α : Type} (fuel : Nat) : ∀ (s : Nat) (l : List α), l.length ≤ fuel →
    (fyAux fuel s l).length = l.length := by
  induction fuel with
  | zero => intro s l h; rfl
  | succ n ih =>
      intro s l h
      cases l with
      | nil => rfl
      | cons x xs =>
          have hidx : s % (x :: xs).length < (x :: xs).length :=
            Nat.mod_lt s (Nat.succ_pos xs.length)
          have herase := List.length_eraseIdx_add_one hidx
          have hle : ((x :: xs).eraseIdx (s % (x :: xs).length)).length ≤ n := by
            simp only [List.length_cons] at h herase ⊢
            omega
          have hrec := ih (lcgNext s) ((x :: xs).eraseIdx (s % (x :: xs).length)) hle
          simp only [fyAux]
          simp only [List.length_cons] at herase hrec ⊢
          omega

/-- Number of test records for test_size=0.2: the ceiling of a fifth of the
dataset size (the rounding the split applies to a fractional test_size). -/
def nTestOf (n : Nat) : Nat := Nat.ceil ((1 / 5 : Rat) * n)

/-- train_test_split(test_size=0.2, shuffle=True, seed=...): shuffle with
the seeded generator, then slice off the test records and keep the rest as
the train split. -/
def train_test_split {α : Type} (seed : Nat) (data : List α) : List α × List α :=
  (fyAux data.length (lcgNext seed) data |>.drop (nTestOf data.length),
   fyAux data.length (lcgNext seed) data |>.take (nTestOf data.length))

/-- The part_000 split call, seed hard-coded to 42; the first parameter
models the ambient process randomness a seedless run would consume — the
script never consults it. -/
def part000Split {α : Type} (_ambient : Nat) (data : List α) : List α × List α :=
  train_test_split 42 data

/-- The Abhishek notebook's split call, seed hard-coded to 23, ambient
randomness likewise ignored. -/
def abhishekSplit {α : Type} (_ambient : Nat) (data : List α) : List α × List α :=
  train_test_split 23 data

theorem nTestOf_le (n : Nat) : nTestOf n ≤ n := by
  unfold nTestOf
  have h1 : ((1 / 5 : Rat) * n) ≤ (n : Rat) := by
    have h0 : (0 : Rat) ≤ (n : Rat) := Nat.cast_nonneg n
    linarith
  calc Nat.ceil ((1 / 5 : Rat) * n) ≤ Nat.ceil ((n : Rat)) := Nat.ceil_le_ceil h1
  _ = n := Nat.ceil_natCast n

theorem nTestOf_dvd (n : Nat) (h : 5 ∣ n) : 5 * nTestOf n = n := by
  obtain ⟨m, rfl⟩ := h
  unfold nTestOf
  have h1 : ((1 / 5 : Rat) * ((5 * m : Nat) : Rat)) = ((m : Nat) : Rat) := by
    push_cast
    ring
  rw [h1, Nat.ceil_natCast]

theorem train_test_split_lengths {α : Type} (seed : Nat) (data : List α) :
    (train_test_split seed data).2.length = nTestOf data.length ∧
    (train_test_split seed data).1.length = data.length - nTestOf data.length := by
  have hshuf : (fyAux data.length (lcgNext seed) data).length = data.length :=
    fyAux_length data.length (lcgNext seed) data (le_refl _)
  have hk := nTestOf_le data.length
  constructor
  · simp only [train_test_split, List.length_take, hshuf]
    omega
  · simp only [train_test_split, List.length_drop, hshuf]

/-- C9: both split calls are deterministic — each hard-codes its seed (42 in
part_000, 23 in the other notebook) and test_size=0.2, so the result is
independent of the ambient randomness and any two runs over the same input
produce identical train and test splits; the test split holds the rounded-up
20% of the records (exactly 20% when the size is divisible by 5) and the
train split holds the rest. -/
theorem c9_split_deterministic {α : Type} (a1 a2 : Nat) (data : List α) :
    (part000Split a1 data = part000Split a2 data ∧
     abhishekSplit a1 data = abhishekSplit a2 data) ∧
    ((part000Split a1 data).2.length = nTestOf data.length ∧
     (part000Split a1 data).1.length = data.length - nTestOf data.length ∧
     (abhishekSplit a1 data).2.length = nTestOf data.length ∧
     (abhishekSplit a1 data).1.length = data.length - nTestOf data.length) ∧
    (5 ∣ data.length → 5 * (part000Split a1 data).2.length = data.length) := by
  have h42 := train_test_split_lengths 42 data
  have h23 := train_test_split_lengths 23 data
  refine ⟨⟨rfl, rfl⟩, ⟨h42.1, h42.2, h23.1, h23.2⟩, ?_⟩
  intro hdvd
  show 5 * (train_test_split 42 data).2.length = data.length
  rw [h42.1]
  exact nTestOf_dvd data.length hdvd

/-- A concrete five-record dataset for the split theorem. -/
def dataW : List Nat := [10, 11, 12, 13, 14]

/-- Witness for c9_split_deterministic: on a five-record dataset the test
split holds exactly one fifth of the records. -/
theorem c9_split_deterministic_witness :
    5 ∣ dataW.length ∧ 5 * (part000Split 0 dataW).2.length = dataW.length :=
  ⟨by decide, (c9_split_deterministic 0 1 dataW).2.2 (by decide)⟩

end Spec2Proof
